import Mathlib

/-!
Shallow embedding of the fasting-tracker's Fast Timer & Duration Engine.

The repository contains two copies of the `CalendarFastEntry` React component:
* `src/unnamed/part_001` — the copy whose `calculateDuration` and `handleSubmit`
  contain the overnight-rollover adjustment
  (`if (startDate.toDateString() === endDate.toDateString() && endHour < startHour)
     end.setDate(end.getDate() + 1)`), embedded below in namespace `Part001`;
* `src/src/components/CalendarFastEntry.tsx` — the copy whose `calculateDuration`
  and `handleSubmit` contain no such adjustment, embedded in namespace `SrcTsx`.
The live-timer handlers (`loadTimerFromBackend`, `handleStartTimer`,
`handlePauseTimer`, `handleResumeTimer`, `handleStopTimer`,
`handleUpdateTimerNotes`, and the one-second interval `useEffect`) are textually
identical in the two copies and are embedded once, at the top level.

Modelling conventions:
* Calendar-form timestamps are integers in minutes.  Both copies build their
  timestamps with `setHours(hour, 0, 0, 0)`, which zeroes minutes, seconds and
  milliseconds, so a JS `Date` reached by the form code is fully described by a
  day index (days since an arbitrary epoch) and an hour; `toDateString()`
  equality is day-index equality, and `setDate(getDate() + 1)` is day + 1.
* `date-fns` `differenceInHours` truncates toward zero and
  `differenceInMinutes` is exact on these whole-minute values; both are applied
  only after the `end <= start` guard, so the difference is positive and Lean's
  integer `/` and `%` agree with the JS computation.
* Live-timer timestamps are integers in seconds (`differenceInSeconds`
  truncates the millisecond part; the claims are stated in whole seconds).
* Each `async` handler is modelled as a pure function from the component state,
  the backend outcome and the current time to the new state plus its observable
  effects (`onAddFast` calls, backend calls, `alert` calls).  `try/catch` around
  a backend call becomes a `Bool`/outcome parameter; `finally setIsLoading(false)`
  makes the loading flag `false` in every result state.
* React's interval effect is modelled by an `intervalActive` flag reconciled
  after every event (`installInterval`), matching the component's single-threaded
  event loop in which the cleanup (`clearInterval`) runs synchronously whenever
  one of the effect dependencies `[isTimerActive, timerStartTime, isPaused]`
  changes.
-/

namespace FastTrack

/-- Result of `calculateDuration`: the JS function returns the number `0` when
`end <= start` (modelled by `invalid`) and otherwise the record
`{ hours, minutes, total: hours + minutes / 60 }` (modelled by `valid`).
No exception is ever thrown: the JS body is straight-line code with no `throw`,
which the embedding reflects by being a total function into this type. -/
inductive DurationResult where
  | invalid : DurationResult
  | valid (hours minutes : Int) (total : ℚ) : DurationResult
deriving DecidableEq

/-- A completed fast as handed to the `onAddFast` callback:
`onAddFast(startTime, endTime, notes)`. -/
structure Fast where
  startTime : Int
  endTime : Int
  notes : String
deriving DecidableEq

/-- The manual-entry form state of the component:
`startDate`, `endDate` (day indices), `startHour`, `endHour` (slider values
0–23) and `notes`. -/
structure FormState where
  startDate : Int
  endDate : Int
  startHour : Int
  endHour : Int
  notes : String
deriving DecidableEq

/-- Start-of-fast timestamp in minutes: `start = new Date(startDate);
start.setHours(startHour, 0, 0, 0)`. -/
def startMinOf (startDate startHour : Int) : Int :=
  startDate * 1440 + startHour * 60

/-- The non-invalid branch shared by both copies of `calculateDuration`:
`hours = differenceInHours(end, start)`, `minutes = differenceInMinutes(end,
start) % 60`, `total = hours + minutes / 60`, applied to the positive
difference `diffMin = end − start` in minutes. -/
def mkDuration (diffMin : Int) : DurationResult :=
  DurationResult.valid (diffMin / 60) (diffMin % 60)
    (((diffMin / 60 : Int) : ℚ) + ((diffMin % 60 : Int) : ℚ) / 60)

/-- Outcome of a `handleSubmit` call: the resulting form state, the `onAddFast`
calls made, and whether the blocking `alert(...)` fired. -/
structure SubmitResult where
  form : FormState
  fasts : List Fast
  alertShown : Bool
deriving DecidableEq

namespace Part001

/-- The overnight-rollover adjustment of `src/unnamed/part_001` (lines 99–103
and 231–235): if start and end are the same calendar day
(`startDate.toDateString() === endDate.toDateString()`) and `endHour <
startHour`, the end date is advanced by one day (`end.setDate(end.getDate() +
1)`); otherwise the end date is unchanged. -/
def adjustedEndDay (startDate endDate startHour endHour : Int) : Int :=
  if startDate = endDate ∧ endHour < startHour then endDate + 1 else endDate

/-- End-of-fast timestamp in minutes after the rollover adjustment, as used by
both `calculateDuration` and `handleSubmit` in `src/unnamed/part_001`. -/
def endMinOf (startDate endDate startHour endHour : Int) : Int :=
  adjustedEndDay startDate endDate startHour endHour * 1440 + endHour * 60

/-- `calculateDuration` of `src/unnamed/part_001` (lines 92–113): build start
and end timestamps, apply the overnight rollover, return `0` when
`end <= start`, otherwise the `{hours, minutes, total}` record. -/
def calculateDuration (startDate endDate startHour endHour : Int) : DurationResult :=
  if endMinOf startDate endDate startHour endHour ≤ startMinOf startDate startHour then
    DurationResult.invalid
  else
    mkDuration (endMinOf startDate endDate startHour endHour - startMinOf startDate startHour)

/-- `handleSubmit` of `src/unnamed/part_001` (lines 222–250): recompute start
and end with the overnight rollover; if `end <= start`, alert
"End time must be after start time" and return with the form untouched;
otherwise call `onAddFast(start, end, notes)` and reset the form to its
defaults (`new Date()` for both dates — the current day `nowDay` — hours 20
and 12, empty notes). -/
def handleSubmit (fs : FormState) (nowDay : Int) : SubmitResult :=
  if endMinOf fs.startDate fs.endDate fs.startHour fs.endHour ≤ startMinOf fs.startDate fs.startHour then
    { form := fs, fasts := [], alertShown := true }
  else
    { form := { startDate := nowDay, endDate := nowDay, startHour := 20, endHour := 12, notes := "" },
      fasts := [{ startTime := startMinOf fs.startDate fs.startHour,
                  endTime := endMinOf fs.startDate fs.endDate fs.startHour fs.endHour,
                  notes := fs.notes }],
      alertShown := false }

end Part001

namespace SrcTsx

/-- End-of-fast timestamp in minutes in `src/src/components/CalendarFastEntry.tsx`
(lines 95–96 and 221–222): this copy applies no overnight adjustment, the end
date is taken as chosen. -/
def endMinOf (endDate endHour : Int) : Int :=
  endDate * 1440 + endHour * 60

/-- `calculateDuration` of `src/src/components/CalendarFastEntry.tsx`
(lines 91–106): identical to the `part_001` copy except that no overnight
rollover is applied before the `end <= start` guard. -/
def calculateDuration (startDate endDate startHour endHour : Int) : DurationResult :=
  if endMinOf endDate endHour ≤ startMinOf startDate startHour then
    DurationResult.invalid
  else
    mkDuration (endMinOf endDate endHour - startMinOf startDate startHour)

/-- `handleSubmit` of `src/src/components/CalendarFastEntry.tsx`
(lines 215–237): identical to the `part_001` copy except that no overnight
rollover is applied before the `end <= start` guard. -/
def handleSubmit (fs : FormState) (nowDay : Int) : SubmitResult :=
  if endMinOf fs.endDate fs.endHour ≤ startMinOf fs.startDate fs.startHour then
    { form := fs, fasts := [], alertShown := true }
  else
    { form := { startDate := nowDay, endDate := nowDay, startHour := 20, endHour := 12, notes := "" },
      fasts := [{ startTime := startMinOf fs.startDate fs.startHour,
                  endTime := endMinOf fs.endDate fs.endHour,
                  notes := fs.notes }],
      alertShown := false }

end SrcTsx

/-- The backend timer record returned by `apiService.getTimer(userId)`:
`{ startTime, isPaused, pausedAt, notes }` (timestamps in seconds). -/
structure TimerData where
  startTime : Int
  isPaused : Bool
  pausedAt : Option Int
  notes : Option String
deriving DecidableEq

/-- The live-timer slice of the component state, plus `intervalActive`
recording whether the one-second `setInterval` of the timer `useEffect` is
currently installed. -/
structure TimerState where
  isTimerActive : Bool
  timerStartTime : Option Int
  elapsedSeconds : Int
  isPaused : Bool
  timerNotes : String
  isLoading : Bool
  intervalActive : Bool
deriving DecidableEq

/-- The component's `useState` initial values: timer inactive, no start time,
zero elapsed seconds, not paused, empty notes, not loading, no interval. -/
def initialTimerState : TimerState :=
  { isTimerActive := false, timerStartTime := none, elapsedSeconds := 0,
    isPaused := false, timerNotes := "", isLoading := false, intervalActive := false }

/-- A call to the backend timer API, as issued by the handlers through
`apiService`.  `updateTimerCall` carries the fields of the partial-update
object (`none` = field absent). -/
inductive BackendCall where
  | startTimerCall (startTime : Int) (notes : String)
  | updateTimerCall (isPaused : Option Bool) (pausedAt : Option (Option Int)) (notes : Option String)
  | deleteTimerCall
deriving DecidableEq

/-- Observable outcome of one handler invocation: the new component state, the
`onAddFast` calls made, the backend calls issued, and whether a blocking
`alert(...)` fired. -/
structure ActionResult where
  state : TimerState
  fasts : List Fast
  calls : List BackendCall
  alertShown : Bool
deriving DecidableEq

/-- `loadTimerFromBackend` (lines 54–79 of `part_001`, 53–78 of the tsx copy):
fetch the persisted timer; if one exists, restore start time, active flag,
paused flag and notes, and set the displayed elapsed seconds to
`differenceInSeconds(now, startTime)` when not paused, or to
`differenceInSeconds(pausedAt, startTime)` when paused with `pausedAt` set.
A fetch failure is only logged (`catch` with `console.error`); the `finally`
clears the loading flag in every case. -/
def loadTimerFromBackend (st : TimerState) (fetchOk : Bool) (timerData : Option TimerData)
    (now : Int) : TimerState :=
  if fetchOk then
    match timerData with
    | some td =>
      let st1 : TimerState :=
        { st with timerStartTime := some td.startTime, isTimerActive := true,
                  isPaused := td.isPaused, timerNotes := td.notes.getD "",
                  isLoading := false }
      if !td.isPaused then
        { st1 with elapsedSeconds := now - td.startTime }
      else
        match td.pausedAt with
        | some p => { st1 with elapsedSeconds := p - td.startTime }
        | none => st1
    | none => { st with isLoading := false }
  else { st with isLoading := false }

/-- `handleStartTimer` (lines 118–137 / 111–130): call
`apiService.startTimer(userId, now, timerNotes)` first; only on success set
the start time, activate the timer, clear the paused flag and zero the elapsed
seconds; on failure show the blocking alert and change nothing (the loading
flag is cycled by `finally`). -/
def handleStartTimer (st : TimerState) (ok : Bool) (now : Int) : ActionResult :=
  if ok then
    { state := { st with timerStartTime := some now, isTimerActive := true,
                         isPaused := false, elapsedSeconds := 0, isLoading := false },
      fasts := [], calls := [BackendCall.startTimerCall now st.timerNotes],
      alertShown := false }
  else
    { state := { st with isLoading := false }, fasts := [],
      calls := [BackendCall.startTimerCall now st.timerNotes], alertShown := true }

/-- `handlePauseTimer` (lines 139–158 / 132–151): call
`apiService.updateTimer(userId, { isPaused: true, pausedAt: now, notes })`
first; only on success set the paused flag; on failure alert and change
nothing. -/
def handlePauseTimer (st : TimerState) (ok : Bool) (now : Int) : ActionResult :=
  if ok then
    { state := { st with isPaused := true, isLoading := false },
      fasts := [],
      calls := [BackendCall.updateTimerCall (some true) (some (some now)) (some st.timerNotes)],
      alertShown := false }
  else
    { state := { st with isLoading := false }, fasts := [],
      calls := [BackendCall.updateTimerCall (some true) (some (some now)) (some st.timerNotes)],
      alertShown := true }

/-- `handleResumeTimer` (lines 160–178 / 153–171): call
`apiService.updateTimer(userId, { isPaused: false, pausedAt: null, notes })`
first; only on success clear the paused flag; on failure alert and change
nothing.  Note that `timerStartTime` and `elapsedSeconds` are untouched. -/
def handleResumeTimer (st : TimerState) (ok : Bool) : ActionResult :=
  if ok then
    { state := { st with isPaused := false, isLoading := false },
      fasts := [],
      calls := [BackendCall.updateTimerCall (some false) (some none) (some st.timerNotes)],
      alertShown := false }
  else
    { state := { st with isLoading := false }, fasts := [],
      calls := [BackendCall.updateTimerCall (some false) (some none) (some st.timerNotes)],
      alertShown := true }

/-- Outcome of a `handleStopTimer` invocation with a non-null start time:
the awaited `onAddFast` threw (`addFailed`), the subsequent
`apiService.deleteTimer` threw (`deleteFailed`), or both succeeded (`ok`). -/
inductive StopResult where
  | addFailed | deleteFailed | ok
deriving DecidableEq

/-- `handleStopTimer` (lines 180–207 / 173–200): if `timerStartTime` is null
the whole body is skipped (no fast, no backend call, no alert, no state
change).  Otherwise `onAddFast(timerStartTime, now, timerNotes)` is awaited
FIRST, then `apiService.deleteTimer(userId)`, then the local timer state is
reset; any failure lands in the `catch` (blocking alert) with the state
untouched apart from the `finally` on the loading flag — in particular a
`deleteTimer` failure happens after the fast has already been handed to the
history store. -/
def handleStopTimer (st : TimerState) (r : StopResult) (now : Int) : ActionResult :=
  match st.timerStartTime with
  | none => { state := st, fasts := [], calls := [], alertShown := false }
  | some s =>
    match r with
    | StopResult.addFailed =>
      { state := { st with isLoading := false }, fasts := [], calls := [], alertShown := true }
    | StopResult.deleteFailed =>
      { state := { st with isLoading := false },
        fasts := [{ startTime := s, endTime := now, notes := st.timerNotes }],
        calls := [BackendCall.deleteTimerCall], alertShown := true }
    | StopResult.ok =>
      { state := { st with isTimerActive := false, timerStartTime := none,
                           elapsedSeconds := 0, isPaused := false, timerNotes := "",
                           isLoading := false },
        fasts := [{ startTime := s, endTime := now, notes := st.timerNotes }],
        calls := [BackendCall.deleteTimerCall], alertShown := false }

/-- `handleUpdateTimerNotes` (lines 209–219 / 202–212): `setTimerNotes(newNotes)`
runs BEFORE the backend call; the call is only issued while the timer is
active; a failure is only logged (`console.error`), never alerted, and the
local change is kept.  The result is therefore independent of the backend
outcome `ok`. -/
def handleUpdateTimerNotes (st : TimerState) (newNotes : String) (ok : Bool) : ActionResult :=
  { state := { st with timerNotes := newNotes },
    fasts := [],
    calls := if st.isTimerActive then [BackendCall.updateTimerCall none none (some newNotes)]
             else [],
    alertShown := false }

/-- The condition of the timer `useEffect` (lines 42–52 / 41–51):
`isTimerActive && timerStartTime && !isPaused`.  The one-second interval is
installed exactly when it holds. -/
def intervalShouldRun (st : TimerState) : Bool :=
  st.isTimerActive && st.timerStartTime.isSome && !st.isPaused

/-- Effect reconciliation after a state change: the cleanup
(`clearInterval`) and re-run of the timer `useEffect` leave the interval
installed exactly when `intervalShouldRun` holds.  The effect depends on
`[isTimerActive, timerStartTime, isPaused]`, none of which this function
changes. -/
def installInterval (st : TimerState) : TimerState :=
  { st with intervalActive := intervalShouldRun st }

/-- One firing of the installed interval:
`setElapsedSeconds(differenceInSeconds(new Date(), timerStartTime))`.
If no interval is installed, nothing fires. -/
def tick (st : TimerState) (now : Int) : TimerState :=
  if st.intervalActive then
    match st.timerStartTime with
    | some s => { st with elapsedSeconds := now - s }
    | none => st
  else st

/-- The events the timer component reacts to, each carrying its backend
outcome and the wall-clock instant at which it runs. -/
inductive TimerEvent where
  | load (fetchOk : Bool) (timerData : Option TimerData) (now : Int)
  | tickAt (now : Int)
  | start (ok : Bool) (now : Int)
  | pause (ok : Bool) (now : Int)
  | resume (ok : Bool)
  | stop (r : StopResult) (now : Int)
  | editNotes (newNotes : String) (ok : Bool)
deriving DecidableEq

/-- State transition of a single event, ignoring the emitted effects. -/
def applyEvent (st : TimerState) : TimerEvent → TimerState
  | TimerEvent.load fetchOk td now => loadTimerFromBackend st fetchOk td now
  | TimerEvent.tickAt now => tick st now
  | TimerEvent.start ok now => (handleStartTimer st ok now).state
  | TimerEvent.pause ok now => (handlePauseTimer st ok now).state
  | TimerEvent.resume ok => (handleResumeTimer st ok).state
  | TimerEvent.stop r now => (handleStopTimer st r now).state
  | TimerEvent.editNotes s ok => (handleUpdateTimerNotes st s ok).state

/-- An event followed by the synchronous effect reconciliation React performs
after the state change (spec §5: 'correctness relies on the interval being
cancelled synchronously when state changes'). -/
def step (st : TimerState) (ev : TimerEvent) : TimerState :=
  installInterval (applyEvent st ev)

/-- A whole interaction trace. -/
def runEvents (st : TimerState) (evs : List TimerEvent) : TimerState :=
  evs.foldl step st

end FastTrack

namespace FastTrack

/-- C1: for integer hours 0–23 with the same start and end day and
`endHour < startHour`, the `part_001` copy advances the end date by exactly one
day before deriving the duration — in `adjustedEndDay`/`endMinOf` (used by its
`calculateDuration`) and in its `handleSubmit`, whose emitted fast ends on day
`D + 1`.  The `src/src/components/CalendarFastEntry.tsx` copy, however,
performs no such advance: its `calculateDuration` returns the invalid sentinel
on every such input and its `handleSubmit` emits no fast, which is the
code-bug divergence recorded for this claim. -/
theorem c1_overnight_rollover (D sh eh : Int) (ns : String) (nowDay : Int)
    (h1 : 0 ≤ sh) (h2 : sh ≤ 23) (h3 : 0 ≤ eh) (h4 : eh ≤ 23) (h5 : eh < sh) :
    Part001.adjustedEndDay D D sh eh = D + 1 ∧
    Part001.endMinOf D D sh eh = (D + 1) * 1440 + eh * 60 ∧
    Part001.calculateDuration D D sh eh =
      mkDuration ((D + 1) * 1440 + eh * 60 - (D * 1440 + sh * 60)) ∧
    (Part001.handleSubmit ⟨D, D, sh, eh, ns⟩ nowDay).fasts =
      [⟨D * 1440 + sh * 60, (D + 1) * 1440 + eh * 60, ns⟩] ∧
    SrcTsx.calculateDuration D D sh eh = DurationResult.invalid ∧
    (SrcTsx.handleSubmit ⟨D, D, sh, eh, ns⟩ nowDay).fasts = [] := by
  have hadj : Part001.adjustedEndDay D D sh eh = D + 1 := by
    unfold Part001.adjustedEndDay
    rw [if_pos ⟨rfl, h5⟩]
  have hend : Part001.endMinOf D D sh eh = (D + 1) * 1440 + eh * 60 := by
    unfold Part001.endMinOf
    rw [hadj]
  have hstart : startMinOf D sh = D * 1440 + sh * 60 := rfl
  refine ⟨hadj, hend, ?_, ?_, ?_, ?_⟩
  · unfold Part001.calculateDuration
    rw [hend, hstart, if_neg (by omega : ¬ ((D + 1) * 1440 + eh * 60 ≤ D * 1440 + sh * 60))]
  · simp only [Part001.handleSubmit]
    rw [hend, hstart, if_neg (by omega : ¬ ((D + 1) * 1440 + eh * 60 ≤ D * 1440 + sh * 60))]
  · simp only [SrcTsx.calculateDuration, SrcTsx.endMinOf, startMinOf]
    rw [if_pos (by omega : D * 1440 + eh * 60 ≤ D * 1440 + sh * 60)]
  · simp only [SrcTsx.handleSubmit, SrcTsx.endMinOf, startMinOf]
    rw [if_pos (by omega : D * 1440 + eh * 60 ≤ D * 1440 + sh * 60)]

/-- Witness for C1 at day 3, start hour 20, end hour 12: the hour bounds hold
and the `part_001` copy advances the end day to 4. -/
theorem c1_overnight_rollover_witness :
    (0 : Int) ≤ 20 ∧ (20 : Int) ≤ 23 ∧ (0 : Int) ≤ 12 ∧ (12 : Int) ≤ 23 ∧ (12 : Int) < 20 ∧
    Part001.adjustedEndDay 3 3 20 12 = 4 :=
  ⟨by norm_num, by norm_num, by norm_num, by norm_num, by norm_num,
   (c1_overnight_rollover 3 20 12 "" 0 (by norm_num) (by norm_num) (by norm_num)
     (by norm_num) (by norm_num)).1⟩

/-- C2: on the `part_001` copy, start 20:00 and end 12:00 of the same day `D`
roll over to day `D + 1` and give exactly 16 hours (`hours = 16`,
`minutes = 0`, `total = 16`).  On the
`src/src/components/CalendarFastEntry.tsx` copy the same input yields the
invalid sentinel `0` instead — the code-bug divergence recorded for this
claim. -/
theorem c2_rollover_sixteen_hours (D : Int) :
    Part001.calculateDuration D D 20 12 = DurationResult.valid 16 0 16 ∧
    SrcTsx.calculateDuration D D 20 12 = DurationResult.invalid := by
  have hend : Part001.endMinOf D D 20 12 = D * 1440 + 2160 := by
    unfold Part001.endMinOf Part001.adjustedEndDay
    rw [if_pos ⟨rfl, by norm_num⟩]
    ring
  have hstart : startMinOf D 20 = D * 1440 + 1200 := by
    unfold startMinOf; ring
  constructor
  · unfold Part001.calculateDuration
    rw [hend, hstart, if_neg (by omega : ¬ (D * 1440 + 2160 ≤ D * 1440 + 1200))]
    rw [(by ring : D * 1440 + 2160 - (D * 1440 + 1200) = 960)]
    simp only [mkDuration]
    norm_num
  · simp only [SrcTsx.calculateDuration, SrcTsx.endMinOf]
    rw [hstart, if_pos (by omega : D * 1440 + 12 * 60 ≤ D * 1440 + 1200)]

/-- C3: in both copies, `calculateDuration` returns the invalid sentinel `0`
exactly when, after whatever end-date adjustment the copy applies, the end
timestamp is at or before the start timestamp; equivalently, an
`{hours, minutes, total}` record is reported exactly when end > start.  The
function is total (the JS body contains no `throw`), so no input raises an
error. -/
theorem c3_invalid_sentinel_iff (sd ed sh eh : Int) :
    (Part001.calculateDuration sd ed sh eh = DurationResult.invalid ↔
      Part001.endMinOf sd ed sh eh ≤ startMinOf sd sh) ∧
    (SrcTsx.calculateDuration sd ed sh eh = DurationResult.invalid ↔
      SrcTsx.endMinOf ed eh ≤ startMinOf sd sh) := by
  constructor
  · by_cases h : Part001.endMinOf sd ed sh eh ≤ startMinOf sd sh
    · simp [Part001.calculateDuration, h]
    · simp [Part001.calculateDuration, h, mkDuration]
  · by_cases h : SrcTsx.endMinOf ed eh ≤ startMinOf sd sh
    · simp [SrcTsx.calculateDuration, h]
    · simp [SrcTsx.calculateDuration, h, mkDuration]

end FastTrack

namespace FastTrack

/-- C4 (amended): every fast emitted by either copy's `handleSubmit` satisfies
`endTime > startTime` (the `end <= start` guard runs after the rollover
adjustment in the `part_001` copy), but the stop-timer path performs no such
check: it emits exactly `Fast(timerStartTime, now, timerNotes)`, so its fasts
have a strictly positive duration only when `now > timerStartTime`. -/
theorem c4_positive_duration_amended :
    (∀ fs nowDay f, f ∈ (Part001.handleSubmit fs nowDay).fasts → f.startTime < f.endTime) ∧
    (∀ fs nowDay f, f ∈ (SrcTsx.handleSubmit fs nowDay).fasts → f.startTime < f.endTime) ∧
    (∀ (st : TimerState) (s : Int) (r : StopResult) (now : Int) (f : Fast),
      f ∈ (handleStopTimer { st with timerStartTime := some s } r now).fasts →
      f.startTime = s ∧ f.endTime = now) := by
  refine ⟨?_, ?_, ?_⟩
  · intro fs nowDay f hf
    unfold Part001.handleSubmit at hf
    by_cases h : Part001.endMinOf fs.startDate fs.endDate fs.startHour fs.endHour ≤
        startMinOf fs.startDate fs.startHour
    · rw [if_pos h] at hf
      simp at hf
    · rw [if_neg h] at hf
      simp at hf
      subst hf
      exact not_le.mp h
  · intro fs nowDay f hf
    unfold SrcTsx.handleSubmit at hf
    by_cases h : SrcTsx.endMinOf fs.endDate fs.endHour ≤ startMinOf fs.startDate fs.startHour
    · rw [if_pos h] at hf
      simp at hf
    · rw [if_neg h] at hf
      simp at hf
      subst hf
      exact not_le.mp h
  · intro st s r now f hf
    cases r
    · simp [handleStopTimer] at hf
    · simp [handleStopTimer] at hf
      subst hf
      exact ⟨rfl, rfl⟩
    · simp [handleStopTimer] at hf
      subst hf
      exact ⟨rfl, rfl⟩

/-- Counterexample to C4 as stated: stopping a timer whose start time equals
the current instant (same wall-clock second, e.g. an immediate stop or a start
time loaded from the backend that is not in the past) hands the history store
a fast with `endTime = startTime`, so `endTime > startTime` does not hold for
every fast that reaches `onAddFast`. -/
theorem c4_stop_counterexample :
    (handleStopTimer ⟨true, some 5, 0, false, "", false, true⟩ StopResult.ok 5).fasts =
      [⟨5, 5, ""⟩] ∧
    ¬ ((5 : Int) < 5) :=
  ⟨rfl, by decide⟩

/-- Witness for C4 (amended), applied to the stop path at start time 7 and
stop time 9: the emitted fast is exactly `Fast(7, 9, notes)`. -/
theorem c4_positive_duration_witness :
    (⟨7, 9, ""⟩ : Fast).startTime = 7 ∧ (⟨7, 9, ""⟩ : Fast).endTime = 9 :=
  c4_positive_duration_amended.2.2 initialTimerState 7 StopResult.ok 9 ⟨7, 9, ""⟩ (by decide)

/-- C5: when the submitted form is invalid (end at or before start, after the
rollover adjustment in the `part_001` copy, without it in the tsx copy),
`handleSubmit` only fires the blocking alert: no `onAddFast` call is made and
the form state (`startDate`, `endDate`, `startHour`, `endHour`, `notes`) is
returned unchanged instead of being reset to the defaults.  No exception is
raised: the guard branch is a plain `alert` + `return`. -/
theorem c5_invalid_blocks_submit (fs : FormState) (nowDay : Int) :
    (Part001.endMinOf fs.startDate fs.endDate fs.startHour fs.endHour ≤
        startMinOf fs.startDate fs.startHour →
      Part001.handleSubmit fs nowDay = ⟨fs, [], true⟩) ∧
    (SrcTsx.endMinOf fs.endDate fs.endHour ≤ startMinOf fs.startDate fs.startHour →
      SrcTsx.handleSubmit fs nowDay = ⟨fs, [], true⟩) := by
  constructor
  · intro h
    unfold Part001.handleSubmit
    rw [if_pos h]
  · intro h
    unfold SrcTsx.handleSubmit
    rw [if_pos h]

/-- Witness for C5 at the same-day form 12:00 → 12:00 (equal start and end,
invalid in both copies): the submission is blocked with the form unchanged. -/
theorem c5_invalid_blocks_submit_witness :
    Part001.endMinOf 0 0 12 12 ≤ startMinOf 0 12 ∧
    Part001.handleSubmit ⟨0, 0, 12, 12, "x"⟩ 7 = ⟨⟨0, 0, 12, 12, "x"⟩, [], true⟩ :=
  ⟨by decide, (c5_invalid_blocks_submit ⟨0, 0, 12, 12, "x"⟩ 7).1 (by decide)⟩

/-- C6: when the backend returns a persisted timer, `loadTimerFromBackend`
restores it and sets the displayed elapsed seconds to `now − startTime` when
the timer is not paused, and to `pausedAt − startTime` when it is paused with
`pausedAt` present. -/
theorem c6_load_restores_elapsed (st : TimerState) (s p now : Int) (pa : Option Int)
    (n : Option String) :
    (loadTimerFromBackend st true (some ⟨s, false, pa, n⟩) now).elapsedSeconds = now - s ∧
    (loadTimerFromBackend st true (some ⟨s, false, pa, n⟩) now).isTimerActive = true ∧
    (loadTimerFromBackend st true (some ⟨s, false, pa, n⟩) now).timerStartTime = some s ∧
    (loadTimerFromBackend st true (some ⟨s, true, some p, n⟩) now).elapsedSeconds = p - s ∧
    (loadTimerFromBackend st true (some ⟨s, true, some p, n⟩) now).isTimerActive = true ∧
    (loadTimerFromBackend st true (some ⟨s, true, some p, n⟩) now).timerStartTime = some s :=
  ⟨rfl, rfl, rfl, rfl, rfl, rfl⟩

/-- C7 (amended): `handleResumeTimer` clears only the paused flag — the
elapsed seconds and the start time are untouched, so immediately after a
resume the display still shows the value frozen at pause time.  But the first
tick after the resume sets the display to the wall-clock difference
`now − timerStartTime`, which includes the whole paused interval (the start
time is never shifted and no pause offset is accumulated), so the display then
jumps forward by the duration of the pause instead of continuing from the
frozen value. -/
theorem c7_resume_semantics_amended (st : TimerState) (s now : Int) :
    (handleResumeTimer st true).state.elapsedSeconds = st.elapsedSeconds ∧
    (handleResumeTimer st true).state.isPaused = false ∧
    (handleResumeTimer st true).state.timerStartTime = st.timerStartTime ∧
    (tick { st with intervalActive := true, timerStartTime := some s } now).elapsedSeconds =
      now - s :=
  ⟨rfl, rfl, rfl, rfl⟩

/-- Counterexample to C7 as stated: start the timer at t = 0, tick at t = 10
(display 10), pause at t = 10, resume at t = 20, next tick at t = 21.
Continuity of accumulated elapsed time would show 10 + 1 = 11 seconds, but the
code displays 21 — the 10-second pause is silently added back. -/
theorem c7_pause_jump_counterexample :
    (runEvents initialTimerState
      [TimerEvent.start true 0, TimerEvent.tickAt 10,
       TimerEvent.pause true 10]).elapsedSeconds = 10 ∧
    (runEvents initialTimerState
      [TimerEvent.start true 0, TimerEvent.tickAt 10, TimerEvent.pause true 10,
       TimerEvent.resume true, TimerEvent.tickAt 21]).elapsedSeconds = 21 ∧
    (21 : Int) ≠ 10 + 1 :=
  ⟨rfl, rfl, by decide⟩

/-- C8 (amended): for start, pause, resume and stop, the backend call precedes
every durable local mutation, and on backend failure the handler shows the
blocking alert and leaves the timer state unchanged (only the transient
loading flag is cycled by `finally`).  `handleUpdateTimerNotes` is the
exception the claim overlooks: it writes the new notes into local state before
issuing the backend call (issued only while the timer is active), keeps the
change regardless of the backend outcome `ok`, and never alerts. -/
theorem c8_mutation_discipline_amended (st : TimerState) (s now : Int)
    (newNotes : String) (ok : Bool) :
    ((handleStartTimer st false now).state = { st with isLoading := false } ∧
      (handleStartTimer st false now).alertShown = true ∧
      (handleStartTimer st false now).calls = [BackendCall.startTimerCall now st.timerNotes]) ∧
    ((handlePauseTimer st false now).state = { st with isLoading := false } ∧
      (handlePauseTimer st false now).alertShown = true) ∧
    ((handleResumeTimer st false).state = { st with isLoading := false } ∧
      (handleResumeTimer st false).alertShown = true) ∧
    ((handleStopTimer { st with timerStartTime := some s } StopResult.deleteFailed now).state =
        { st with timerStartTime := some s, isLoading := false } ∧
      (handleStopTimer { st with timerStartTime := some s }
        StopResult.deleteFailed now).alertShown = true) ∧
    ((handleUpdateTimerNotes st newNotes ok).state.timerNotes = newNotes ∧
      (handleUpdateTimerNotes st newNotes ok).alertShown = false ∧
      (handleUpdateTimerNotes { st with isTimerActive := true } newNotes ok).calls =
        [BackendCall.updateTimerCall none none (some newNotes)]) :=
  ⟨⟨rfl, rfl, rfl⟩, ⟨rfl, rfl⟩, ⟨rfl, rfl⟩, ⟨rfl, rfl⟩, ⟨rfl, rfl, rfl⟩⟩

/-- Counterexample to C8 as stated: a notes edit from "a" to "b" while the
timer is active and the backend call fails still leaves the locally stored
notes mutated to "b", a backend call was issued only after the local write,
and no alert is shown. -/
theorem c8_notes_counterexample :
    (handleUpdateTimerNotes ⟨true, some 0, 0, false, "a", false, true⟩ "b"
      false).state.timerNotes ≠ "a" ∧
    (handleUpdateTimerNotes ⟨true, some 0, 0, false, "a", false, true⟩ "b"
      false).calls ≠ [] ∧
    (handleUpdateTimerNotes ⟨true, some 0, 0, false, "a", false, true⟩ "b"
      false).alertShown = false :=
  ⟨by decide, by decide, rfl⟩

/-- C9: after any event (each event being followed by the synchronous effect
reconciliation that tears down the interval when a dependency flag changed), a
tick is a no-op whenever the resulting state is paused, inactive, or has no
start time — the displayed elapsed seconds is never tick-updated in those
states. -/
theorem c9_no_tick_when_paused (st : TimerState) (ev : TimerEvent) (now : Int)
    (h : (step st ev).isPaused = true ∨ (step st ev).isTimerActive = false ∨
      (step st ev).timerStartTime = none) :
    step (step st ev) (TimerEvent.tickAt now) = step st ev := by
  have hia : (step st ev).intervalActive = false := by
    have hrun : intervalShouldRun (step st ev) = false := by
      unfold intervalShouldRun
      rcases h with h | h | h <;> simp [h]
    exact hrun
  have htick : tick (step st ev) now = step st ev := by
    simp [tick, hia]
  show installInterval (tick (step st ev) now) = step st ev
  rw [htick]
  rfl

/-- Witness for C9: after a successful pause event the state is paused, and a
later tick leaves the state (in particular the elapsed seconds) unchanged. -/
theorem c9_no_tick_when_paused_witness :
    (step initialTimerState (TimerEvent.pause true 0)).isPaused = true ∧
    step (step initialTimerState (TimerEvent.pause true 0)) (TimerEvent.tickAt 99) =
      step initialTimerState (TimerEvent.pause true 0) :=
  ⟨by decide,
   c9_no_tick_when_paused initialTimerState (TimerEvent.pause true 0) 99 (Or.inl (by decide))⟩

/-- C10: with a null start time `handleStopTimer` is a complete no-op (no
fast, no backend call, no alert, no state change); with a start time, the
fast is handed to `onAddFast` BEFORE `deleteTimer` is called, so a
`deleteTimer` failure leaves the fast already recorded while the local timer
state (`isTimerActive`, `timerStartTime`, `timerNotes`, ...) is not reset;
and when the earlier `onAddFast` itself fails, no fast is recorded and
`deleteTimer` is never attempted. -/
theorem c10_stop_nonatomic (st : TimerState) (r : StopResult) (s now : Int) :
    handleStopTimer { st with timerStartTime := none } r now =
      ⟨{ st with timerStartTime := none }, [], [], false⟩ ∧
    (handleStopTimer { st with timerStartTime := some s } StopResult.deleteFailed now).fasts =
      [⟨s, now, st.timerNotes⟩] ∧
    (handleStopTimer { st with timerStartTime := some s } StopResult.deleteFailed now).state =
      { st with timerStartTime := some s, isLoading := false } ∧
    (handleStopTimer { st with timerStartTime := some s } StopResult.deleteFailed now).calls =
      [BackendCall.deleteTimerCall] ∧
    (handleStopTimer { st with timerStartTime := some s }
      StopResult.deleteFailed now).alertShown = true ∧
    (handleStopTimer { st with timerStartTime := some s } StopResult.addFailed now).fasts = [] ∧
    (handleStopTimer { st with timerStartTime := some s } StopResult.addFailed now).calls = [] :=
  ⟨rfl, rfl, rfl, rfl, rfl, rfl, rfl⟩

end FastTrack
